import Mathlib

/-!
Verification development for the Provider Gateway of the AnkiLingoFlash
browser extension (source files: `src/common/background_common.js`,
`src/common/content.js`).

The JavaScript source is shallowly embedded below.  Pure functions are
translated into Lean functions; the mutable `chrome.storage.sync` record is
threaded explicitly as a `SyncStorage` value (or a key-indexed map for the
translation cache); the single network exchange a gateway call performs is
represented by a `NetResult` value describing what `fetch` produced.

Platform primitives that the source calls but that are not part of the
repository are modelled by their interface contracts:
* `crypto.subtle` (PBKDF2 key derivation and AES-GCM), `TextEncoder` /
  `TextDecoder` — bundled into the `WebCrypto` structure, whose two proof
  fields state the documented round-trip contracts of those primitives;
* `crypto.getRandomValues` — a `RandomTape` (an infinite byte stream with a
  read position), each call consuming the bytes it draws;
* `chrome.i18n.getMessage` — an abstract function from a message key and
  substitution list to a string;
* `JSON.parse` of a reply body — an abstract partial parser from strings to
  flat string-valued objects (`none` models a thrown `SyntaxError`), which is
  the JSON shape the schema-constrained requests of this extension ask for.
-/

/-! ### JavaScript string helpers -/

/-- `subIncludes hay needle` : does `hay` contain `needle` as a contiguous
substring (char-list form of JavaScript `String.prototype.includes`)? -/
def subIncludes : List Char → List Char → Bool
  | [], needle => needle.isEmpty
  | c :: rest, needle => needle.isPrefixOf (c :: rest) || subIncludes rest needle

/-- JavaScript `s.includes(pat)`. -/
def jsIncludes (s pat : String) : Bool :=
  subIncludes s.toList pat.toList

/-- ASCII lower-casing of a character (the fragment of JavaScript
`String.prototype.toLowerCase` exercised by the classifier's indicators,
which are all ASCII). -/
def jsCharToLower (c : Char) : Char :=
  if 'A' ≤ c ∧ c ≤ 'Z' then Char.ofNat (c.toNat + 32) else c

/-- JavaScript `s.toLowerCase()` on the ASCII fragment. -/
def jsToLower (s : String) : String :=
  ⟨s.toList.map jsCharToLower⟩

/-- Suffix of `hay` that follows the first occurrence of `needle`, or `none`
when `needle` does not occur.  Used to model in-order regex matching. -/
def dropAfterMatch : List Char → List Char → Option (List Char)
  | [], needle => if needle.isEmpty then some [] else none
  | c :: rest, needle =>
    if needle.isPrefixOf (c :: rest) then some ((c :: rest).drop needle.length)
    else dropAfterMatch rest needle

/-- `containsInOrder cs parts` : every element of `parts` occurs in `cs`, in
order and without overlap.  This is how a regex of the shape
`p₁.*p₂.*p₃` (as used by `isUnsupportedModelError`) matches a string; the
model ignores the newline restriction of `.` since no indicator or payload of
interest spans lines. -/
def containsInOrder : List Char → List (List Char) → Bool
  | _, [] => true
  | cs, p :: ps =>
    match dropAfterMatch cs p with
    | some rest => containsInOrder rest ps
    | none => false

/-- Fuel-driven splitter on a non-empty separator (char-list form of
JavaScript `String.prototype.split` for the literal separators used here). -/
def splitOnSubGo (sep : List Char) : Nat → List Char → List Char → List (List Char)
  | 0, _, acc => [acc.reverse]
  | _ + 1, [], acc => [acc.reverse]
  | fuel + 1, c :: rest, acc =>
    if sep ≠ [] ∧ sep.isPrefixOf (c :: rest) then
      acc.reverse :: splitOnSubGo sep fuel ((c :: rest).drop sep.length) []
    else
      splitOnSubGo sep fuel rest (c :: acc)

/-- Split `l` on every occurrence of `sep`. -/
def splitOnSub (l sep : List Char) : List (List Char) :=
  splitOnSubGo sep (l.length + 1) l []

/-- JavaScript `a || b` for an optional string `a` (both `undefined` and the
empty string are falsy). -/
def jsOrString (a : Option String) (b : String) : String :=
  match a with
  | some s => if s = "" then b else s
  | none => b

/-- JavaScript falsiness of an optional string (`undefined`, `null` and `""`
are falsy). -/
def strFalsy : Option String → Bool
  | none => true
  | some s => s = ""

/-! ### Credential Vault: `encryptApiKey` / `decryptApiKey`
(`background_common.js` lines 53–75 and 2083–2112) -/

/-- Interface model of the WebCrypto primitives used by the vault.
`deriveKey` models `importKey` + `deriveKey` (PBKDF2, 100 000 iterations,
SHA-256, into AES-GCM-256 key material): it is a deterministic function of
the password bytes and the salt.  `gcmEncrypt` / `gcmDecrypt` model
`crypto.subtle.encrypt` / `decrypt` with AES-GCM (decryption returns `none`
on an authentication failure).  `encode` / `decode` model `TextEncoder` /
`TextDecoder`.  The two proof fields are the documented contracts:
UTF-8 decoding inverts encoding, and GCM decryption with the same key and IV
inverts encryption. -/
structure WebCrypto where
  encode : String → List Nat
  decode : List Nat → Option String
  deriveKey : List Nat → List Nat → List Nat
  gcmEncrypt : List Nat → List Nat → List Nat → List Nat
  gcmDecrypt : List Nat → List Nat → List Nat → Option (List Nat)
  decode_encode : ∀ s, decode (encode s) = some s
  gcm_roundtrip : ∀ k iv m, gcmDecrypt k iv (gcmEncrypt k iv m) = some m

/-- An infinite stream of bytes with a read position: the model of
`crypto.getRandomValues`.  Each draw consumes the bytes it returns, so two
draws never reuse a position. -/
structure RandomTape where
  bytes : Nat → Nat
  pos : Nat

/-- Draw `n` fresh bytes from the tape (`crypto.getRandomValues(new Uint8Array(n))`). -/
def getRandomValues (n : Nat) (t : RandomTape) : List Nat × RandomTape :=
  ((List.range n).map fun i => t.bytes (t.pos + i) % 256, ⟨t.bytes, t.pos + n⟩)

/-- The persisted shape of an encrypted credential:
`{salt: [...], iv: [...], encrypted: [...]}`. -/
structure EncryptedBlob where
  salt : List Nat
  iv : List Nat
  encrypted : List Nat
deriving DecidableEq, Repr

/-- `encryptApiKey(apiKey, password)` (`background_common.js` 2083–2112):
encode the key, draw a fresh 16-byte salt, derive the AES-GCM key from the
password and salt, draw a fresh 12-byte IV, encrypt. -/
def encryptApiKey (C : WebCrypto) (apiKey password : String) (t : RandomTape) :
    EncryptedBlob × RandomTape :=
  let data := C.encode apiKey
  let key := C.encode password
  let (salt, t1) := getRandomValues 16 t
  let derivedKey := C.deriveKey key salt
  let (iv, t2) := getRandomValues 12 t1
  let encrypted := C.gcmEncrypt derivedKey iv data
  (⟨salt, iv, encrypted⟩, t2)

/-- `decryptApiKey(encryptedData, password)` (`background_common.js` 53–75):
re-derive the key from the password and the blob's salt, decrypt with the
blob's IV, decode.  `none` models the rejected promise (a thrown
`OperationError`) on an authentication-tag mismatch. -/
def decryptApiKey (C : WebCrypto) (blob : EncryptedBlob) (password : String) :
    Option String :=
  let key := C.encode password
  let derivedKey := C.deriveKey key blob.salt
  match C.gcmDecrypt derivedKey blob.iv blob.encrypted with
  | none => none
  | some m => C.decode m

/-- A concrete instance of the `WebCrypto` interface, used only to evaluate
the vault model on explicit inputs: characters stand for their own bytes and
the cipher tags the plaintext with a recognisable byte so that corrupted
blobs fail to decrypt. -/
def trivialCrypto : WebCrypto where
  encode s := s.toList.map Char.toNat
  decode l := some ⟨l.map Char.ofNat⟩
  deriveKey _ _ := []
  gcmEncrypt _ _ m := 1 :: m
  gcmDecrypt _ _ ct :=
    match ct with
    | 1 :: m => some m
    | _ => none
  decode_encode s := by
    simp [List.map_map, Function.comp_def, Char.ofNat_toNat]
  gcm_roundtrip k iv m := rfl

/-- `generateInstallationPassword()` (`background_common.js` 2071–2075):
32 random bytes, hex-encoded. -/
def byteToHex (b : Nat) : String :=
  ⟨[Nat.digitChar (b / 16 % 16), Nat.digitChar (b % 16)]⟩

def generateInstallationPassword (t : RandomTape) : String × RandomTape :=
  let (bs, t') := getRandomValues 32 t
  (String.join (bs.map byteToHex), t')

/-! ### Result Cache (`content.js` lines 734–800) -/

/-- One step of the rolling hash in `createTextHash`: JavaScript coerces
through 32-bit signed integers after the shift and after the `& hash`. -/
def toInt32 (n : Int) : Int :=
  (n + 2 ^ 31) % 2 ^ 32 - 2 ^ 31

def hashStep (h : Int) (c : Nat) : Int :=
  toInt32 (toInt32 (h * 32) - h + c)

/-- Digits for `Number.prototype.toString(36)`. -/
def base36Char (n : Nat) : Char :=
  if n < 10 then Char.ofNat (48 + n) else Char.ofNat (87 + n)

def natToBase36Go : Nat → Nat → List Char → List Char
  | 0, m, acc => base36Char (m % 36) :: acc
  | fuel + 1, m, acc =>
    if m < 36 then base36Char m :: acc
    else natToBase36Go fuel (m / 36) (base36Char (m % 36) :: acc)

def natToBase36 (n : Nat) : List Char :=
  natToBase36Go n n []

/-- `createTextHash(text)` (`content.js` 734–742): 32-bit rolling hash,
rendered in base 36 (with a leading minus sign when negative, as in
JavaScript). -/
def createTextHash (text : String) : String :=
  let h := text.toList.foldl (fun h c => hashStep h c.toNat) 0
  if h < 0 then ⟨'-' :: natToBase36 h.natAbs⟩ else ⟨natToBase36 h.toNat⟩

/-- `createTranslationCacheKey(text, language)` (`content.js` 750–753). -/
def createTranslationCacheKey (text language : String) : String :=
  "translation_cache_" ++ createTextHash text ++ "_" ++ language

/-- A stored cache entry (`content.js` 791–800). -/
structure CacheEntry where
  translation : String
  timestamp : Int
  sourceText : String
  targetLanguage : String
deriving DecidableEq, Repr

/-- The translation-cache slice of `chrome.storage.sync`: a key-indexed map. -/
abbrev CacheStore := String → Option CacheEntry

/-- `isTranslationExpired(timestamp)` (`content.js` 760–763), with
`Date.now()` passed explicitly as `now`. -/
def isTranslationExpired (now timestamp : Int) : Bool :=
  (now - timestamp) > 24 * 60 * 60 * 1000

/-- `getCachedTranslation(text, language)` (`content.js` 771–783). -/
def getCachedTranslation (store : CacheStore) (now : Int) (text language : String) :
    Option String :=
  let cacheKey := createTranslationCacheKey text language
  match store cacheKey with
  | some e => if !isTranslationExpired now e.timestamp then some e.translation else none
  | none => none

/-- `setCachedTranslation(text, language, translation)` (`content.js`
791–800): unconditional overwrite of the entry's key. -/
def setCachedTranslation (store : CacheStore) (now : Int) (text language translation : String) :
    CacheStore :=
  fun k =>
    if k = createTranslationCacheKey text language then
      some ⟨translation, now, text, language⟩
    else store k

/-! ### Error Classifier (`background_common.js` lines 532–602, 779–791,
896–904; `content.js` lines 65–148) -/

/-- Model of the parsed JSON error body `errorData`.  `none` models `{}`
(the `.catch(() => ({}))` fallback); `some e` models `{error: {...}}` with
its optional `type` and `message` fields. -/
structure ErrObj where
  type : Option String
  message : Option String
deriving DecidableEq, Repr

abbrev ApiErrorPayload := Option ErrObj

/-- One indicator test of `isUnsupportedModelError`: indicators containing
`.*` are tested as case-insensitive regexes (in-order part matching),
the rest by lower-cased substring containment. -/
def indicatorMatches (errorMessage ind : String) : Bool :=
  if jsIncludes ind ".*" then
    containsInOrder (jsToLower errorMessage).toList (splitOnSub ind.toList ".*".toList)
  else
    jsIncludes (jsToLower errorMessage) ind

def openaiModelErrorIndicators : List String :=
  ["does not exist", "invalid model", "not found", "is not supported",
   "unknown model",
   "response_format.*json_schema.*is not supported with this model",
   "json_schema.*is not supported",
   "structured outputs.*not supported"]

def googleModelErrorIndicators : List String :=
  ["not found", "invalid model", "does not exist", "unknown model",
   "is not supported"]

/-- `isUnsupportedModelError(errorData, status)` (`background_common.js`
532–580).  When `errorData.error` is present and its `type` is
`invalid_request_error` the OpenAI indicator list decides; otherwise, when
`errorData.error` is present, the Google indicator list decides.  The
`status` argument is unused by the source body and kept for fidelity. -/
def isUnsupportedModelError (errorData : ApiErrorPayload) (_status : Nat) : Bool :=
  match errorData with
  | none => false
  | some e =>
    let errorMessage := e.message.getD ""
    if e.type = some "invalid_request_error" then
      openaiModelErrorIndicators.any (indicatorMatches errorMessage)
    else
      googleModelErrorIndicators.any (indicatorMatches errorMessage)

/-- `isNetworkError(error, status)` (`background_common.js` 588–602):
transport signatures on the message, or a 5xx status. -/
def isNetworkError (message : String) (status : Nat) : Bool :=
  (jsIncludes message "Failed to fetch" ||
   jsIncludes message "Network request failed" ||
   (jsIncludes message "fetch" && jsIncludes message "timeout")) ||
  (500 ≤ status && status < 600)

/-- The transport-failure signatures `isNetworkError` recognises on an error
message (connection refused, name-resolution failure and timeouts all surface
as one of these in the browsers the extension targets). -/
def transportSig (message : String) : Bool :=
  jsIncludes message "Failed to fetch" ||
  jsIncludes message "Network request failed" ||
  (jsIncludes message "fetch" && jsIncludes message "timeout")

/-- `errorData.error?.message || response.statusText`: the message the
failing branches feed to `new Error(...)`. -/
def effectiveMessage (errorData : ApiErrorPayload) (statusText : String) : String :=
  match errorData with
  | some e => jsOrString e.message statusText
  | none => statusText

/-- The enhanced error object the gateway rejects with
(`background_common.js` 939–952); `provider = none` models a plain `Error`
rejected before the provider dispatch, which carries no `provider`, `status`,
`errorData` or `isUnsupportedModel` property. -/
structure EnhancedError where
  message : String
  status : Option Nat
  errorData : Option ApiErrorPayload
  isUnsupportedModel : Bool
  provider : Option String
deriving DecidableEq, Repr

/-- The error thrown on a non-OK HTTP response (`background_common.js`
779–791 for OpenAI, 891–904 for Google): message built from the status and
payload, `isUnsupportedModel` set only when the payload matches a model
indicator and the failure is not network-like. -/
def mkHttpFailure (provider : String) (status : Nat) (statusText : String)
    (errorData : ApiErrorPayload) : EnhancedError :=
  let m := effectiveMessage errorData statusText
  { message :=
      if provider = "google" then
        s!"Google API HTTP error! status: {status}, message: {m}"
      else
        s!"HTTP error! status: {status}, message: {m}"
    status := some status
    errorData := some errorData
    isUnsupportedModel := isUnsupportedModelError errorData status && !isNetworkError m status
    provider := some provider }

/-- The enhanced error produced when `fetch` itself rejects (transport
failure): the thrown error has no `status`, `errorData` or
`isUnsupportedModel` property, so the catch block (939–952) forwards
`undefined` for them. -/
def mkTransportFailure (provider message : String) : EnhancedError :=
  ⟨message, none, none, false, some provider⟩

/-- The network-signature guard of `getApiErrorMessage` (`content.js`
71–76): matches only when `error.message` is truthy and contains one of the
four substrings. -/
def contentNetworkGuard (message : String) : Bool :=
  message ≠ "" &&
  (jsIncludes message "Failed to fetch" ||
   jsIncludes message "Network request failed" ||
   jsIncludes message "network" ||
   jsIncludes message "connection")

/-- The `switch (status)` of `getApiErrorMessage` (`content.js` 84–147). -/
def apiErrorStatusSwitch (status : Nat) (errorMessage : String) (provider : String) :
    String :=
  if status = 400 then
    if provider = "google" && jsIncludes errorMessage "free tier is not available" then
      "apiError400FailedPrecondition"
    else "apiError400InvalidRequest"
  else if status = 401 then
    if jsIncludes errorMessage "incorrect" || jsIncludes errorMessage "invalid" then
      "apiError401IncorrectKey"
    else if jsIncludes errorMessage "organization" then "apiError401NotMember"
    else "apiError401InvalidAuth"
  else if status = 403 then
    if jsIncludes errorMessage "country" || jsIncludes errorMessage "region" ||
       jsIncludes errorMessage "territory" || jsIncludes errorMessage "not supported" then
      "apiError403CountryNotSupported"
    else "apiError403PermissionDenied"
  else if status = 404 then "apiError404NotFound"
  else if status = 429 then
    if jsIncludes errorMessage "quota" || jsIncludes errorMessage "credits" ||
       jsIncludes errorMessage "billing" || jsIncludes errorMessage "exceeded" then
      "apiError429QuotaExceeded"
    else if jsIncludes errorMessage "slow down" then "apiError503SlowDown"
    else "apiError429RateLimit"
  else if status = 500 then "apiError500ServerError"
  else if status = 503 then
    if jsIncludes errorMessage "overloaded" || jsIncludes errorMessage "capacity" then
      "apiError503ServiceUnavailable"
    else if jsIncludes errorMessage "slow down" then "apiError503SlowDown"
    else "apiError503ServiceUnavailable"
  else if status = 504 then "apiError504Timeout"
  else "apiErrorGeneric"

/-- `getApiErrorMessage(error, provider)` (`content.js` 65–148), returning
the `chrome.i18n` message key the source passes to `getMessage`. -/
def getApiErrorMessage (status : Nat) (message : String) (errorData : ApiErrorPayload)
    (provider : String) : String :=
  if contentNetworkGuard message then "networkError"
  else if message ≠ "" && jsIncludes message "JSON" then "jsonParseError"
  else
    apiErrorStatusSwitch status
      (jsToLower (jsOrString (errorData.bind (·.message)) (jsOrString (some message) "")))
      provider

/-- The message keys that render as authentication failures (the AUTH
taxon of the spec). -/
def authKeys : List String :=
  ["apiError401IncorrectKey", "apiError401NotMember", "apiError401InvalidAuth",
   "apiError403CountryNotSupported", "apiError403PermissionDenied"]

/-- The message keys that render as rate-limit / quota failures (the
RATE_LIMIT taxon of the spec); `apiError503SlowDown` is included because the
429 branch returns it for "slow down" payloads. -/
def rateLimitKeys : List String :=
  ["apiError429QuotaExceeded", "apiError429RateLimit", "apiError503SlowDown"]

/-! ### Conversation Store (`background_common.js` lines 477–520, 670–677,
803–806, 925–934) -/

structure Message where
  role : String
  content : String
deriving DecidableEq, Repr

structure Conversation where
  messages : List Message
deriving DecidableEq, Repr

/-- `getSystemPrompt(type, learningGoal)` (`background_common.js` 501–520),
with `chrome.i18n.getMessage` abstract as `gm`. -/
def getSystemPrompt (gm : String → List String → String) (type learningGoal : String) :
    String :=
  if type = "flashcard" then gm "generateFlashcardInstructions" [learningGoal]
  else if type = "definition" then gm "helpfulAssistantDefinition" []
  else if type = "mnemonic" then gm "creativeAssistantMnemonic" []
  else if type = "translation" then gm "translationAssistant" []
  else if type = "examples" then gm "examplesAssistant" [learningGoal]
  else if type = "translation_popup" then gm "translationAssistant" []
  else gm "generateFlashcardInstructions" [learningGoal]

/-- `getOrCreateConversation` (`background_common.js` 477–494) as seen by the
caller: a fresh `[system]` conversation when the key is absent, otherwise the
stored conversation with index 0 overwritten by the current system message
(JavaScript assignment to `[0]` creates the element when the array is empty). -/
def getOrCreateConversationModel (stored : Option Conversation) (systemPrompt : String) :
    Conversation :=
  match stored with
  | none => ⟨[⟨"system", systemPrompt⟩]⟩
  | some c =>
    match c.messages with
    | [] => ⟨[⟨"system", systemPrompt⟩]⟩
    | _ :: t => ⟨⟨"system", systemPrompt⟩ :: t⟩

/-- The OpenAI branch's system-message guard (`background_common.js`
672–676): prepend a system message when the head is missing or not `system`,
otherwise overwrite the head's content. -/
def ensureSystemHead (l : List Message) (systemPromptText : String) : List Message :=
  match l with
  | [] => [⟨"system", systemPromptText⟩]
  | h :: t =>
    if h.role ≠ "system" then ⟨"system", systemPromptText⟩ :: h :: t
    else ⟨h.role, systemPromptText⟩ :: t

/-- JavaScript `array.slice(-2)`. -/
def sliceLast2 (l : List Message) : List Message :=
  l.drop (l.length - 2)

/-- The OpenAI trim `[messages[0], ...messages.slice(-2)]`
(`background_common.js` 805). -/
def openaiTrim (l : List Message) : List Message :=
  l.take 1 ++ sliceLast2 l

/-- The Google trim (`background_common.js` 929–933): keep the system head
plus the last two messages when the head is a system message, else just the
last two. -/
def googleTrim (l : List Message) : List Message :=
  match l.head? with
  | some m => if m.role = "system" then l.take 1 ++ sliceLast2 l else sliceLast2 l
  | none => sliceLast2 l

/-! ### Gateway (`background_common.js` lines 613–955, 1060–1082) -/

/-- The slice of `chrome.storage.sync` the gateway reads (`background_common.js`
615–620).  Missing keys are `none` / `false` (JavaScript `undefined` is
falsy). -/
structure SyncStorage where
  isOwnCredits : Bool
  selectedProvider : Option String
  encryptedApiKey : Option EncryptedBlob
  encryptedGoogleApiKey : Option EncryptedBlob
  installationPassword : Option String
  apiKeyValidated : Bool
  googleApiKeyValidated : Bool
  learningGoal : Option String
  model : Option String
  googleModel : Option String
deriving Repr

/-- The closed `CONVERSATION_TYPES` enumeration (`background_common.js`
7–14). -/
def conversationTypeValues : List String :=
  ["flashcard", "definition", "mnemonic", "translation", "examples",
   "translation_popup"]

/-- The key-structure of the `response_format` JSON schema the OpenAI branch
sends (`background_common.js` 688–759): schema name, property keys,
required keys, `additionalProperties` and `strict` flags.
Field descriptions (which interpolate `language` and `learningGoal` but add
no keys) are not modelled. -/
structure JsonSchemaModel where
  name : String
  propertyKeys : List String
  required : List String
  additionalProperties : Bool
  strict : Bool
deriving DecidableEq, Repr

/-- The `response_format.json_schema` built for a conversation type
(`background_common.js` 688–759).  For flashcards the `mnemonic` key is
present exactly when the outbound user message contains the substring
`"mnemonic"`. -/
def openaiResponseFormat (type userMessage : String) : JsonSchemaModel :=
  if type = "flashcard" then
    let includeMnemonic := jsIncludes userMessage "mnemonic"
    let keys := ["definition", "translation", "example_1", "example_2", "example_3"] ++
      (if includeMnemonic then ["mnemonic"] else [])
    ⟨"flashcard_response", keys, keys, false, true⟩
  else if type = "examples" then
    ⟨"examples_response", ["example_1", "example_2", "example_3"],
     ["example_1", "example_2", "example_3"], false, true⟩
  else if type = "translation_popup" then
    ⟨"translation_response", ["translation"], ["translation"], false, true⟩
  else
    ⟨"component_response", [type], [type], false, true⟩

/-- A flat string-valued JSON object: the value `JSON.parse` yields for a
schema-conformant reply of this extension. -/
abbrev FlatObj := List (String × String)

/-- What a single `fetch` exchange produced, as far as the gateway can
observe it: a rejected fetch promise with an error message, a non-OK
response (status, statusText and parsed JSON error body), or an OK response
with the provider-specific success body. -/
inductive NetResult where
  | transportFail (message : String)
  | httpError (status : Nat) (statusText : String) (errorData : ApiErrorPayload)
  | okOpenAI (choices : List Message)
  | okGoogle (candidates : List (List String))

/-- The message a thrown `SyntaxError` of `JSON.parse` carries (the exact
platform text is irrelevant to every claim; it only needs to exist). -/
def jsonSyntaxErrorMessage : String := "Unexpected token: the reply is not valid JSON"

/-- Precheck phase of `callAIProviderAPI` (`background_common.js` 621–660):
validation-flag checks, credential resolution (decrypting the stored blob
when no explicit key is supplied), missing-key check, conversation-type
check.  Errors are the messages of the plain `Error` objects the source
rejects with; `ok` carries `apiKeyToUse`. -/
def gatewayPrecheck (C : WebCrypto) (gm : String → List String → String)
    (st : SyncStorage) (apiKey : Option String) (type : String) :
    Except String (Option String) :=
  let provider := jsOrString st.selectedProvider "openai"
  if st.isOwnCredits && provider = "openai" && !st.apiKeyValidated then
    .error (gm "enterValidApiKey" [])
  else if st.isOwnCredits && provider = "google" && !st.googleApiKeyValidated then
    .error (gm "enterValidGoogleApiKey" [])
  else
    let resolved : Except String (Option String) :=
      if st.isOwnCredits && strFalsy apiKey then
        let field := if provider = "google" then st.encryptedGoogleApiKey
                     else st.encryptedApiKey
        match field, st.installationPassword with
        | some blob, some pw =>
          if pw = "" then
            .error (gm (if provider = "google" then "googleApiKeyMissingOrNotEncrypted"
                        else "apiKeyMissingOrNotEncrypted") [])
          else
            match decryptApiKey C blob pw with
            | some k => .ok (some k)
            | none => .error (gm "failedToDecryptApiKey" [])
        | _, _ =>
          .error (gm (if provider = "google" then "googleApiKeyMissingOrNotEncrypted"
                      else "apiKeyMissingOrNotEncrypted") [])
      else .ok apiKey
    match resolved with
    | .error e => .error e
    | .ok apiKeyToUse =>
      if strFalsy apiKeyToUse && st.isOwnCredits then
        .error (gm (if provider = "google" then "googleApiKeyMissing"
                    else "apiKeyMissing") [])
      else if !(conversationTypeValues.contains type) then
        .error s!"Invalid conversation type: {type}"
      else .ok apiKeyToUse

/-- What one `callAIProviderAPI` invocation produced.
`response = none` models a promise that never settles (which the source
exhibits when `selectedProvider` holds a string other than the two
enumerated providers: neither branch runs and nothing resolves or rejects).
`convAfter` is the value stored under `conversation_<userId>_<type>` after
the call.  `sentRequest` records whether `fetch` was reached. -/
structure GatewayResult where
  response : Option (Except EnhancedError FlatObj)
  convAfter : Option Conversation
  sentRequest : Bool

/-- Full model of `callAIProviderAPI` (`background_common.js` 613–955).
`parse` models `JSON.parse` on the reply content; `stored` is the prior
value under the conversation key; `net` is what the single `fetch` of this
call produced. -/
def callAIProviderAPIModel (C : WebCrypto) (gm : String → List String → String)
    (parse : String → Option FlatObj) (st : SyncStorage)
    (stored : Option Conversation) (type userMessage : String)
    (apiKey : Option String) (net : NetResult) : GatewayResult :=
  let provider := jsOrString st.selectedProvider "openai"
  let learningGoal := jsOrString st.learningGoal "General language learning"
  match gatewayPrecheck C gm st apiKey type with
  | .error msg => ⟨some (.error ⟨msg, none, none, false, none⟩), stored, false⟩
  | .ok _ =>
    let systemPromptText := getSystemPrompt gm type learningGoal
    let conv := getOrCreateConversationModel stored systemPromptText
    -- value persisted by `getOrCreateConversation` itself: a new `[system]`
    -- conversation is written when the key was absent; an existing record is
    -- only mutated in memory at this point
    let convAfterFetchStage : Option Conversation :=
      match stored with
      | none => some ⟨[⟨"system", systemPromptText⟩]⟩
      | some c => some c
    if provider = "openai" then
      let msgs := ensureSystemHead conv.messages systemPromptText ++ [⟨"user", userMessage⟩]
      match net with
      | .transportFail m =>
        ⟨some (.error (mkTransportFailure provider m)), convAfterFetchStage, true⟩
      | .httpError status statusText errorData =>
        ⟨some (.error (mkHttpFailure provider status statusText errorData)),
         convAfterFetchStage, true⟩
      | .okGoogle _ =>
        ⟨some (.error ⟨"Invalid API response: missing or empty choices array",
                       none, none, false, some provider⟩), convAfterFetchStage, true⟩
      | .okOpenAI choices =>
        match choices.head? with
        | none =>
          ⟨some (.error ⟨"Invalid API response: missing or empty choices array",
                         none, none, false, some provider⟩), convAfterFetchStage, true⟩
        | some assistantMessage =>
          if assistantMessage.content = "" then
            ⟨some (.error ⟨"Invalid API response: missing message content",
                           none, none, false, some provider⟩), convAfterFetchStage, true⟩
          else
            let trimmed := openaiTrim (msgs ++ [assistantMessage])
            let newStored := some (⟨trimmed⟩ : Conversation)
            match parse assistantMessage.content with
            | some o => ⟨some (.ok o), newStored, true⟩
            | none =>
              ⟨some (.error ⟨jsonSyntaxErrorMessage, none, none, false, some provider⟩),
               newStored, true⟩
    else if provider = "google" then
      match net with
      | .transportFail m =>
        ⟨some (.error (mkTransportFailure provider m)), convAfterFetchStage, true⟩
      | .httpError status statusText errorData =>
        ⟨some (.error (mkHttpFailure provider status statusText errorData)),
         convAfterFetchStage, true⟩
      | .okOpenAI _ =>
        ⟨some (.error ⟨"Invalid Google API response: missing or malformed content",
                       none, none, false, some provider⟩), convAfterFetchStage, true⟩
      | .okGoogle candidates =>
        match candidates.head? with
        | none =>
          ⟨some (.error ⟨"Invalid Google API response: missing or malformed content",
                         none, none, false, some provider⟩), convAfterFetchStage, true⟩
        | some parts =>
          match parts.head? with
          | none =>
            ⟨some (.error ⟨"Invalid Google API response: missing or malformed content",
                           none, none, false, some provider⟩), convAfterFetchStage, true⟩
          | some text =>
            if text = "" then
              ⟨some (.error ⟨"Invalid Google API response: missing or malformed content",
                             none, none, false, some provider⟩), convAfterFetchStage, true⟩
            else
              let msgs2 := conv.messages ++ [⟨"user", userMessage⟩, ⟨"assistant", text⟩]
              let trimmed := googleTrim msgs2
              let newStored := some (⟨trimmed⟩ : Conversation)
              match parse text with
              | some o => ⟨some (.ok o), newStored, true⟩
              | none =>
                ⟨some (.error ⟨jsonSyntaxErrorMessage, none, none, false, some provider⟩),
                 newStored, true⟩
    else
      ⟨none, convAfterFetchStage, false⟩

/-- The response object the `callChatGPTAPI` message listener sends
(`background_common.js` 1060–1082).  `none` fields model properties whose
value is `undefined` (dropped when the response is delivered); the
`isUnsupportedModel` property is attached only when the error's flag is
truthy. -/
structure ListenerResponse where
  success : Bool
  data : Option FlatObj
  error : Option String
  status : Option Nat
  errorData : Option ApiErrorPayload
  provider : Option String
  isUnsupportedModel : Option Bool
deriving DecidableEq, Repr

/-- The listener's packaging of a settled `callAIProviderAPI` outcome
(`background_common.js` 1062–1080). -/
def handleCallChatGPTAPIResponse (r : Except EnhancedError FlatObj) : ListenerResponse :=
  match r with
  | .ok d => ⟨true, some d, none, none, none, none, none⟩
  | .error e =>
    ⟨false, none, some e.message, e.status, e.errorData, e.provider,
     if e.isUnsupportedModel then some true else none⟩

/-! ### Conversation exchange step (for the sliding-window invariant) -/

/-- One successful exchange as the two provider branches perform it on the
stored conversation: the OpenAI branch (`background_common.js` 670–677,
803–806) and the Google branch (925–934).  Both start from
`getOrCreateConversation` on the prior stored value with the current system
prompt; the assistant message of the OpenAI branch is whatever message
object the provider returned. -/
inductive ExchangeInput where
  | openai (systemPrompt userMessage : String) (assistantMessage : Message)
  | google (systemPrompt userMessage assistantText : String)

/-- The conversation stored after one successful exchange. -/
def exchangeStep (stored : Option Conversation) : ExchangeInput → Conversation
  | .openai systemPrompt userMessage assistantMessage =>
    let conv := getOrCreateConversationModel stored systemPrompt
    let msgs := ensureSystemHead conv.messages systemPrompt ++
      [⟨"user", userMessage⟩, assistantMessage]
    ⟨openaiTrim msgs⟩
  | .google systemPrompt userMessage assistantText =>
    let conv := getOrCreateConversationModel stored systemPrompt
    let msgs := conv.messages ++ [⟨"user", userMessage⟩, ⟨"assistant", assistantText⟩]
    ⟨googleTrim msgs⟩

/-- The conversation stored after a sequence of successful exchanges. -/
def storedAfterExchanges (stored : Option Conversation) (l : List ExchangeInput) :
    Option Conversation :=
  l.foldl (fun s i => some (exchangeStep s i)) stored

/-! ### Credential storage update (`background_common.js` 1699–1731) -/

/-- The single `chrome.storage.sync.set(storageUpdate)` call of
`handleValidateApiKey`'s success path, applied to a prior storage state.
The Google branch stores the new Google blob and clears the OpenAI key,
flag and model; the OpenAI branch does the converse. -/
def applyValidateUpdate (provider : String) (blob : EncryptedBlob) (pw : String)
    (st : SyncStorage) : SyncStorage :=
  if provider = "google" then
    { st with
      isOwnCredits := true
      installationPassword := some pw
      encryptedGoogleApiKey := some blob
      encryptedApiKey := none
      googleApiKeyValidated := true
      apiKeyValidated := false
      model := none }
  else
    { st with
      isOwnCredits := true
      installationPassword := some pw
      encryptedApiKey := some blob
      encryptedGoogleApiKey := none
      apiKeyValidated := true
      googleApiKeyValidated := false
      googleModel := none }

/-- The success path of `handleValidateApiKey` (`background_common.js`
1699–1722): generate a fresh installation password, encrypt the validated
key under it, and write password and blob in one storage update. -/
def handleValidateApiKeySuccess (C : WebCrypto) (provider apiKey : String)
    (t : RandomTape) (st : SyncStorage) : SyncStorage × RandomTape :=
  let (pw, t1) := generateInstallationPassword t
  let (blob, t2) := encryptApiKey C apiKey pw t1
  (applyValidateUpdate provider blob pw st, t2)

/-- Schema conformance of a flat reply object: exactly the required keys (no
duplicates, since every required key is also a property and
`additionalProperties` is `false`), every value a string. -/
def conformsTo (o : FlatObj) (s : JsonSchemaModel) : Prop :=
  (o.map Prod.fst).Nodup ∧ (∀ k ∈ s.required, k ∈ o.map Prod.fst) ∧
    (∀ k ∈ o.map Prod.fst, k ∈ s.required)

instance (o : FlatObj) (s : JsonSchemaModel) : Decidable (conformsTo o s) := by
  unfold conformsTo
  infer_instance

/-- An identity-stream random tape, used to evaluate the vault on concrete
inputs. -/
def idTape : RandomTape := ⟨fun i => i, 0⟩

/-- An all-zero random tape (a degenerate randomness source on which two
draws coincide). -/
def zeroTape : RandomTape := ⟨fun _ => 0, 0⟩

/-- The empty cache store. -/
def emptyCache : CacheStore := fun _ => none

/-- A storage state in own-credits mode for the OpenAI provider with a
validated flag, a stored installation password and a corrupted encrypted
blob (its ciphertext fails authentication). -/
def c5Storage : SyncStorage :=
  ⟨true, some "openai", some ⟨[], [], [0]⟩, none, some "pw", true, false, none, none, none⟩

/-- A free-tier storage state: not in own-credits mode, nothing stored. -/
def freeTierStorage : SyncStorage :=
  ⟨false, none, none, none, none, false, false, none, none, none⟩

/-- The caller-facing response contract (spec §6, with `provider` optional):
either `{success: true, data}` with no error fields, or
`{success: false, error, status?, errorData?, provider?, isUnsupportedModel?}`.
This definition follows the spec's words, to be compared with the
listener's packaging. -/
def specCallerContract (resp : ListenerResponse) : Bool :=
  (resp.success && resp.data.isSome && resp.error.isNone && resp.status.isNone &&
    resp.errorData.isNone && resp.provider.isNone && resp.isUnsupportedModel.isNone) ||
  (!resp.success && resp.data.isNone && resp.error.isSome)


/-! ## Shared helper lemmas -/

/-- Decrypting a freshly encrypted blob with the encrypting password returns
the original secret (shared helper; follows from the PBKDF2 determinism and
the GCM and UTF-8 round-trip contracts). -/
theorem decryptApiKey_encryptApiKey (C : WebCrypto) (S P : String) (t : RandomTape) :
    decryptApiKey C (encryptApiKey C S P t).1 P = some S := by
  simp [decryptApiKey, encryptApiKey, C.gcm_roundtrip, C.decode_encode]

/-- Two maps over `List.range n` differ as lists when the functions differ at
some index below `n`. -/
theorem range_map_ne {n : Nat} (f g : Nat → Nat) (j : Nat) (hj : j < n)
    (hne : f j ≠ g j) : (List.range n).map f ≠ (List.range n).map g := by
  intro h
  apply hne
  have h2 := congrArg (fun l : List Nat => l[j]?) h
  simpa [List.getElem?_map, List.getElem?_range hj] using h2

/-! ## C1 -/

/-- Claim C1: for every non-empty secret string S and every password string
P, decrypting the blob produced by `encryptApiKey(S, P)` with the same
password P returns exactly S, for any WebCrypto implementation satisfying the
platform contracts and any randomness. -/
theorem c1_decrypt_encrypt_roundtrip (C : WebCrypto) (S P : String) (t : RandomTape)
    (_hS : S ≠ "") : decryptApiKey C (encryptApiKey C S P t).1 P = some S :=
  decryptApiKey_encryptApiKey C S P t

/-- Witness for C1 at a concrete secret, password and random tape. -/
theorem c1_decrypt_encrypt_roundtrip_witness :
    decryptApiKey trivialCrypto
      (encryptApiKey trivialCrypto "sk-test-0123" "0a1b2c3d" idTape).1 "0a1b2c3d"
      = some "sk-test-0123" :=
  c1_decrypt_encrypt_roundtrip trivialCrypto "sk-test-0123" "0a1b2c3d" idTape (by decide)

/-! ## C8 -/

/-- Counterexample to C8 as stated: the distinctness of two encryptions is a
property of the randomness source, not of `encryptApiKey` itself.  On a
degenerate randomness source that returns the same bytes twice (possible,
though with negligible probability, for a real CSPRNG), two calls with the
same secret and password produce identical salt, identical IV and identical
ciphertext. -/
theorem c8_counterexample :
    (encryptApiKey trivialCrypto "sk-test-0123" "pw" zeroTape).1.salt
        = (encryptApiKey trivialCrypto "sk-test-0123" "pw"
            (encryptApiKey trivialCrypto "sk-test-0123" "pw" zeroTape).2).1.salt ∧
    (encryptApiKey trivialCrypto "sk-test-0123" "pw" zeroTape).1.iv
        = (encryptApiKey trivialCrypto "sk-test-0123" "pw"
            (encryptApiKey trivialCrypto "sk-test-0123" "pw" zeroTape).2).1.iv ∧
    (encryptApiKey trivialCrypto "sk-test-0123" "pw" zeroTape).1.encrypted
        = (encryptApiKey trivialCrypto "sk-test-0123" "pw"
            (encryptApiKey trivialCrypto "sk-test-0123" "pw" zeroTape).2).1.encrypted := by
  refine ⟨rfl, rfl, rfl⟩

/-- Amended C8: every call to `encryptApiKey` draws its 16-byte salt and its
12-byte IV from fresh, previously unconsumed positions of the randomness
source (the second call starts exactly where the first stopped, 28 bytes in,
so salts and IVs are never reused); and whenever the freshly drawn bytes
differ between the two calls — which holds except with negligible probability
for a CSPRNG — the two blobs have different salt and different IV, and hence
differ byte-for-byte. -/
theorem c8_fresh_salt_iv (C : WebCrypto) (S P : String) (t : RandomTape)
    (hs : ∃ j, j < 16 ∧ t.bytes (t.pos + j) % 256 ≠ t.bytes (t.pos + 28 + j) % 256)
    (hi : ∃ j, j < 12 ∧ t.bytes (t.pos + 16 + j) % 256 ≠ t.bytes (t.pos + 44 + j) % 256) :
    (encryptApiKey C S P t).2.pos = t.pos + 28 ∧
    (encryptApiKey C S P (encryptApiKey C S P t).2).2.pos = t.pos + 56 ∧
    (encryptApiKey C S P t).1.salt
      ≠ (encryptApiKey C S P (encryptApiKey C S P t).2).1.salt ∧
    (encryptApiKey C S P t).1.iv
      ≠ (encryptApiKey C S P (encryptApiKey C S P t).2).1.iv ∧
    (encryptApiKey C S P t).1
      ≠ (encryptApiKey C S P (encryptApiKey C S P t).2).1 := by
  obtain ⟨j, hj, hjne⟩ := hs
  obtain ⟨i, hi2, hine⟩ := hi
  refine ⟨by simp [encryptApiKey, getRandomValues], ?_, ?_, ?_, ?_⟩
  · simp [encryptApiKey, getRandomValues]
  · simp only [encryptApiKey, getRandomValues]
    apply range_map_ne _ _ j hj
    have e : t.pos + 16 + 12 + j = t.pos + 28 + j := by omega
    simpa [e] using hjne
  · simp only [encryptApiKey, getRandomValues]
    apply range_map_ne _ _ i hi2
    have e : t.pos + 16 + 12 + 16 + i = t.pos + 44 + i := by omega
    simpa [e] using hine
  · intro h
    have hsalt := congrArg EncryptedBlob.salt h
    revert hsalt
    simp only [encryptApiKey, getRandomValues]
    apply range_map_ne _ _ j hj
    have e : t.pos + 16 + 12 + j = t.pos + 28 + j := by omega
    simpa [e] using hjne

/-- Witness for the amended C8 on the identity tape, where the drawn byte
blocks differ at offset 0. -/
theorem c8_fresh_salt_iv_witness :
    (encryptApiKey trivialCrypto "sk" "pw" idTape).2.pos = idTape.pos + 28 ∧
    (encryptApiKey trivialCrypto "sk" "pw"
      (encryptApiKey trivialCrypto "sk" "pw" idTape).2).2.pos = idTape.pos + 56 ∧
    (encryptApiKey trivialCrypto "sk" "pw" idTape).1.salt
      ≠ (encryptApiKey trivialCrypto "sk" "pw"
          (encryptApiKey trivialCrypto "sk" "pw" idTape).2).1.salt ∧
    (encryptApiKey trivialCrypto "sk" "pw" idTape).1.iv
      ≠ (encryptApiKey trivialCrypto "sk" "pw"
          (encryptApiKey trivialCrypto "sk" "pw" idTape).2).1.iv ∧
    (encryptApiKey trivialCrypto "sk" "pw" idTape).1
      ≠ (encryptApiKey trivialCrypto "sk" "pw"
          (encryptApiKey trivialCrypto "sk" "pw" idTape).2).1 :=
  c8_fresh_salt_iv trivialCrypto "sk" "pw" idTape
    ⟨0, by decide, by decide⟩ ⟨0, by decide, by decide⟩

/-! ## C6 -/

/-- Claim C6: a cached translation is returned at `createdAt + 23h59m` and is
a miss at `createdAt + 24h1m`; in general any read of an entry with
`now - createdAt > 24h` behaves as a miss (the stale entry is never
returned). -/
theorem c6_cache_ttl (store : CacheStore) (text language translation : String)
    (t : Int) (s2 : CacheStore) (now2 : Int) (e : CacheEntry)
    (h2 : s2 (createTranslationCacheKey text language) = some e)
    (hexp : now2 - e.timestamp > 86400000) :
    getCachedTranslation (setCachedTranslation store t text language translation)
      (t + 86340000) text language = some translation ∧
    getCachedTranslation (setCachedTranslation store t text language translation)
      (t + 86460000) text language = none ∧
    getCachedTranslation s2 now2 text language = none := by
  refine ⟨?_, ?_, ?_⟩
  · simp [getCachedTranslation, setCachedTranslation, isTranslationExpired]
  · simp [getCachedTranslation, setCachedTranslation, isTranslationExpired]
  · simp [getCachedTranslation, h2, isTranslationExpired, hexp]

/-- Witness for C6 at a concrete entry and concrete timestamps. -/
theorem c6_cache_ttl_witness :
    getCachedTranslation (setCachedTranslation emptyCache 0 "bonjour" "english_us" "hello")
      (0 + 86340000) "bonjour" "english_us" = some "hello" ∧
    getCachedTranslation (setCachedTranslation emptyCache 0 "bonjour" "english_us" "hello")
      (0 + 86460000) "bonjour" "english_us" = none ∧
    getCachedTranslation
      (setCachedTranslation emptyCache 0 "bonjour" "english_us" "hello")
      90000000 "bonjour" "english_us" = none :=
  c6_cache_ttl emptyCache "bonjour" "english_us" "hello" 0
    (setCachedTranslation emptyCache 0 "bonjour" "english_us" "hello") 90000000
    ⟨"hello", 0, "bonjour", "english_us"⟩
    (by simp [setCachedTranslation]) (by decide)

/-! ## C10 -/

/-- Claim C10: the success path of `handleValidateApiKey` writes, in one
storage update, the fresh installation password together with the new blob,
clears the other provider's encrypted key, validation flag and selected
model, and the stored blob decrypts under the stored password back to the
validated key; after any such update at most one provider's encrypted
credential is present. -/
theorem c10_exclusive_credential (C : WebCrypto) (apiKeyG apiKeyO : String)
    (tG tO : RandomTape) (stG stO : SyncStorage)
    (p q : String) (b : EncryptedBlob) (s : SyncStorage) :
    ((handleValidateApiKeySuccess C "google" apiKeyG tG stG).1.encryptedApiKey = none) ∧
    ((handleValidateApiKeySuccess C "google" apiKeyG tG stG).1.apiKeyValidated = false) ∧
    ((handleValidateApiKeySuccess C "google" apiKeyG tG stG).1.model = none) ∧
    ((handleValidateApiKeySuccess C "google" apiKeyG tG stG).1.googleApiKeyValidated = true) ∧
    ((handleValidateApiKeySuccess C "google" apiKeyG tG stG).1.isOwnCredits = true) ∧
    (∃ pw blob,
      (handleValidateApiKeySuccess C "google" apiKeyG tG stG).1.installationPassword
          = some pw ∧
      (handleValidateApiKeySuccess C "google" apiKeyG tG stG).1.encryptedGoogleApiKey
          = some blob ∧
      decryptApiKey C blob pw = some apiKeyG) ∧
    ((handleValidateApiKeySuccess C "openai" apiKeyO tO stO).1.encryptedGoogleApiKey = none) ∧
    ((handleValidateApiKeySuccess C "openai" apiKeyO tO stO).1.googleApiKeyValidated = false) ∧
    ((handleValidateApiKeySuccess C "openai" apiKeyO tO stO).1.googleModel = none) ∧
    ((handleValidateApiKeySuccess C "openai" apiKeyO tO stO).1.apiKeyValidated = true) ∧
    (∃ pw blob,
      (handleValidateApiKeySuccess C "openai" apiKeyO tO stO).1.installationPassword
          = some pw ∧
      (handleValidateApiKeySuccess C "openai" apiKeyO tO stO).1.encryptedApiKey
          = some blob ∧
      decryptApiKey C blob pw = some apiKeyO) ∧
    (((applyValidateUpdate p b q s).encryptedApiKey.isSome &&
      (applyValidateUpdate p b q s).encryptedGoogleApiKey.isSome) = false) := by
  refine ⟨rfl, rfl, rfl, rfl, rfl,
    ⟨(generateInstallationPassword tG).1,
     (encryptApiKey C apiKeyG (generateInstallationPassword tG).1
        (generateInstallationPassword tG).2).1, rfl, rfl,
     decryptApiKey_encryptApiKey C apiKeyG (generateInstallationPassword tG).1
        (generateInstallationPassword tG).2⟩,
    rfl, rfl, rfl, rfl,
    ⟨(generateInstallationPassword tO).1,
     (encryptApiKey C apiKeyO (generateInstallationPassword tO).1
        (generateInstallationPassword tO).2).1, rfl, rfl,
     decryptApiKey_encryptApiKey C apiKeyO (generateInstallationPassword tO).1
        (generateInstallationPassword tO).2⟩, ?_⟩
  by_cases hp : p = "google" <;> simp [applyValidateUpdate, hp]

/-! ## C2 -/

/-- The conversation `getOrCreateConversation` hands to a branch always
starts with a system message. -/
theorem getOrCreate_head (stored : Option Conversation) (sys : String) :
    ∃ t, (getOrCreateConversationModel stored sys).messages
        = (⟨"system", sys⟩ : Message) :: t := by
  cases stored with
  | none => exact ⟨[], rfl⟩
  | some c =>
    obtain ⟨msgs⟩ := c
    cases msgs with
    | nil => exact ⟨[], rfl⟩
    | cons h t => exact ⟨t, rfl⟩

/-- A single successful exchange always stores a conversation of at most 3
messages whose head is a system message, in either provider branch. -/
theorem exchangeStep_spec (stored : Option Conversation) (i : ExchangeInput) :
    (exchangeStep stored i).messages.length ≤ 3 ∧
    (exchangeStep stored i).messages.head?.map Message.role = some "system" := by
  cases i with
  | openai sys u a =>
    obtain ⟨t, ht⟩ := getOrCreate_head stored sys
    constructor
    · simp [exchangeStep, ht, ensureSystemHead, openaiTrim, sliceLast2]
    · simp [exchangeStep, ht, ensureSystemHead, openaiTrim, sliceLast2]
  | google sys u a =>
    obtain ⟨t, ht⟩ := getOrCreate_head stored sys
    constructor
    · simp [exchangeStep, ht, googleTrim, sliceLast2]
    · simp [exchangeStep, ht, googleTrim, sliceLast2]

/-- Claim C2: after N ≥ 1 successful exchanges (in either the OpenAI or the
Google branch, in any mix, from any starting state), the stored conversation
has at most 3 messages and its first message has role `system`. -/
theorem c2_conversation_window (stored : Option Conversation) (l : List ExchangeInput)
    (hne : l ≠ []) :
    (storedAfterExchanges stored l).isSome = true ∧
    ((storedAfterExchanges stored l).getD ⟨[]⟩).messages.length ≤ 3 ∧
    ((storedAfterExchanges stored l).getD ⟨[]⟩).messages.head?.map Message.role
        = some "system" := by
  induction l generalizing stored with
  | nil => exact absurd rfl hne
  | cons i is ih =>
    cases is with
    | nil =>
      exact ⟨rfl, (exchangeStep_spec stored i).1, (exchangeStep_spec stored i).2⟩
    | cons j js =>
      have h := ih (some (exchangeStep stored i)) (by simp)
      simpa [storedAfterExchanges] using h

/-- Witness for C2: one Google exchange followed by one OpenAI exchange from
an empty store. -/
theorem c2_conversation_window_witness :
    (storedAfterExchanges none
      [ExchangeInput.google "s" "u" "a",
       ExchangeInput.openai "s2" "u2" ⟨"assistant", "a2"⟩]).isSome = true ∧
    ((storedAfterExchanges none
      [ExchangeInput.google "s" "u" "a",
       ExchangeInput.openai "s2" "u2" ⟨"assistant", "a2"⟩]).getD ⟨[]⟩).messages.length ≤ 3 ∧
    ((storedAfterExchanges none
      [ExchangeInput.google "s" "u" "a",
       ExchangeInput.openai "s2" "u2" ⟨"assistant", "a2"⟩]).getD
        ⟨[]⟩).messages.head?.map Message.role = some "system" :=
  c2_conversation_window none
    [ExchangeInput.google "s" "u" "a", ExchangeInput.openai "s2" "u2" ⟨"assistant", "a2"⟩]
    (by simp)

/-! ## C3 -/

/-- Claim C3: a failure carrying a transport-level network signature
satisfies `isNetworkError` and a transport failure is never flagged as an
unsupported model; and for every HTTP status in [500, 599] the thrown error
is never flagged as an unsupported model — whatever the payload, including
payloads that match a model-unavailability indicator — while
`isNetworkError` classifies it as a network failure. -/
theorem c3_network_beats_unsupported (m : String) (status : Nat) (provider : String)
    (provider2 : String) (status5 : Nat) (statusText5 : String)
    (errorData5 : ApiErrorPayload)
    (hsig : transportSig m = true) (h5a : 500 ≤ status5) (h5b : status5 ≤ 599) :
    isNetworkError m status = true ∧
    (mkTransportFailure provider m).isUnsupportedModel = false ∧
    (mkHttpFailure provider2 status5 statusText5 errorData5).isUnsupportedModel = false ∧
    isNetworkError (effectiveMessage errorData5 statusText5) status5 = true := by
  have h5 : isNetworkError (effectiveMessage errorData5 statusText5) status5 = true := by
    simp [isNetworkError]
    omega
  refine ⟨?_, rfl, ?_, h5⟩
  · simp only [isNetworkError, transportSig] at hsig ⊢
    simp [hsig]
  · simp [mkHttpFailure, h5]

/-- Witness for C3: a `Failed to fetch` transport failure, and a 503 whose
payload matches the model-unavailability indicator `does not exist`. -/
theorem c3_network_beats_unsupported_witness :
    isNetworkError "Failed with fetch timeout" 404 = true ∧
    (mkTransportFailure "openai" "Failed with fetch timeout").isUnsupportedModel = false ∧
    (mkHttpFailure "openai" 503 "Service Unavailable"
      (some ⟨some "invalid_request_error",
             some "The model gpt-999 does not exist"⟩)).isUnsupportedModel = false ∧
    isNetworkError
      (effectiveMessage
        (some ⟨some "invalid_request_error", some "The model gpt-999 does not exist"⟩)
        "Service Unavailable") 503 = true :=
  c3_network_beats_unsupported "Failed with fetch timeout" 404 "openai" "openai" 503
    "Service Unavailable"
    (some ⟨some "invalid_request_error", some "The model gpt-999 does not exist"⟩)
    (by decide) (by decide) (by decide)

/-! ## C4 -/

/-- Counterexample to C4 as stated: a payload that mentions quota and billing
but arrives with an HTTP status other than 429 is not classified as a
rate-limit failure; the status-400 branch wins and yields the
invalid-request message.  The input is not a transport failure (the message
carries no network signature) and matches no model-unavailability
indicator. -/
theorem c4_counterexample :
    getApiErrorMessage 400
      "HTTP error! status: 400, message: You exceeded your current quota, please check your plan and billing details"
      (some ⟨none, some "You exceeded your current quota, please check your plan and billing details"⟩)
      "openai" = "apiError400InvalidRequest" ∧
    rateLimitKeys.contains "apiError400InvalidRequest" = false ∧
    jsIncludes "You exceeded your current quota, please check your plan and billing details" "quota" = true ∧
    jsIncludes "You exceeded your current quota, please check your plan and billing details" "billing" = true ∧
    isUnsupportedModelError
      (some ⟨none, some "You exceeded your current quota, please check your plan and billing details"⟩)
      400 = false ∧
    transportSig "HTTP error! status: 400, message: You exceeded your current quota, please check your plan and billing details" = false := by
  refine ⟨by decide, by decide, by decide, by decide, by decide, by decide⟩

/-- When neither content-side guard fires, `getApiErrorMessage` is the
status switch applied to the effective lower-cased error message. -/
theorem getApiErrorMessage_eq_switch (status : Nat) (m : String)
    (errorData : ApiErrorPayload) (provider : String)
    (hg : contentNetworkGuard m = false)
    (hj : (m ≠ "" && jsIncludes m "JSON") = false) :
    getApiErrorMessage status m errorData provider
      = apiErrorStatusSwitch status
          (jsToLower (jsOrString (errorData.bind (·.message)) (jsOrString (some m) "")))
          provider := by
  unfold getApiErrorMessage
  rw [if_neg (by rw [hg]; simp), if_neg (by rw [hj]; simp)]

/-- Amended C4: for failures that are not flagged as unsupported-model and
whose error message contains neither a network-like substring
(`Failed to fetch`, `Network request failed`, `network`, `connection`) nor
`JSON`, the classifier yields an AUTH message exactly for HTTP statuses 401
and 403 and a RATE_LIMIT message for HTTP status 429 (where a payload
mentioning quota, billing or credits selects the quota-specific variant); a
payload mentioning quota/billing/credits under any other status — apart from
the 503 "slow down" overlap — is not classified as RATE_LIMIT. -/
theorem c4_auth_and_rate_limit (provider : String)
    (m1 m2 m3 : String) (p1 p2 p3 : ApiErrorPayload) (s1 s2 s3 : Nat)
    (h1 : contentNetworkGuard m1 = false)
    (h1j : (m1 ≠ "" && jsIncludes m1 "JSON") = false)
    (hs1 : s1 = 401 ∨ s1 = 403)
    (h2 : contentNetworkGuard m2 = false)
    (h2j : (m2 ≠ "" && jsIncludes m2 "JSON") = false)
    (hs2 : s2 = 429)
    (h3 : contentNetworkGuard m3 = false)
    (h3j : (m3 ≠ "" && jsIncludes m3 "JSON") = false)
    (hs3a : s3 ≠ 429) (hs3b : s3 ≠ 503) :
    authKeys.contains (getApiErrorMessage s1 m1 p1 provider) = true ∧
    rateLimitKeys.contains (getApiErrorMessage s2 m2 p2 provider) = true ∧
    rateLimitKeys.contains (getApiErrorMessage s3 m3 p3 provider) = false := by
  refine ⟨?_, ?_, ?_⟩
  · rw [getApiErrorMessage_eq_switch _ _ _ _ h1 h1j]
    rcases hs1 with rfl | rfl <;>
      · simp only [apiErrorStatusSwitch]
        norm_num
        split_ifs <;> decide
  · rw [getApiErrorMessage_eq_switch _ _ _ _ h2 h2j]
    subst hs2
    simp only [apiErrorStatusSwitch]
    norm_num
    split_ifs <;> decide
  · rw [getApiErrorMessage_eq_switch _ _ _ _ h3 h3j]
    simp only [apiErrorStatusSwitch]
    split_ifs <;> decide

/-- Witness for the amended C4: a 401 invalid-key failure, a 429 quota
failure, and a 500 failure whose payload mentions billing. -/
theorem c4_auth_and_rate_limit_witness :
    authKeys.contains
      (getApiErrorMessage 401
        "HTTP error! status: 401, message: Incorrect API key provided"
        (some ⟨none, some "Incorrect API key provided"⟩) "openai") = true ∧
    rateLimitKeys.contains
      (getApiErrorMessage 429
        "HTTP error! status: 429, message: You exceeded your current quota"
        (some ⟨none, some "You exceeded your current quota"⟩) "openai") = true ∧
    rateLimitKeys.contains
      (getApiErrorMessage 500
        "HTTP error! status: 500, message: billing issue on our side"
        (some ⟨none, some "billing issue on our side"⟩) "openai") = false :=
  c4_auth_and_rate_limit "openai"
    "HTTP error! status: 401, message: Incorrect API key provided"
    "HTTP error! status: 429, message: You exceeded your current quota"
    "HTTP error! status: 500, message: billing issue on our side"
    (some ⟨none, some "Incorrect API key provided"⟩)
    (some ⟨none, some "You exceeded your current quota"⟩)
    (some ⟨none, some "billing issue on our side"⟩)
    401 429 500
    (by decide) (by decide) (Or.inl rfl) (by decide) (by decide) rfl
    (by decide) (by decide) (by decide) (by decide)

/-! ## C5 -/

/-- When the precheck rejects, the gateway returns that rejection as a plain
error, performs no network request and leaves the stored conversation
untouched, whatever the network would have produced. -/
theorem gateway_precheck_error (C : WebCrypto) (gm : String → List String → String)
    (parse : String → Option FlatObj) (st : SyncStorage) (stored : Option Conversation)
    (type userMessage : String) (apiKey : Option String) (net : NetResult) (msg : String)
    (h : gatewayPrecheck C gm st apiKey type = .error msg) :
    callAIProviderAPIModel C gm parse st stored type userMessage apiKey net
      = ⟨some (.error ⟨msg, none, none, false, none⟩), stored, false⟩ := by
  simp [callAIProviderAPIModel, h]

/-- In free-tier mode the precheck rejects an unknown conversation type with
the invalid-type error. -/
theorem gatewayPrecheck_freeTier_invalid_type (C : WebCrypto)
    (gm : String → List String → String) (st : SyncStorage) (apiKey : Option String)
    (type : String) (h : st.isOwnCredits = false)
    (ht : type ∉ conversationTypeValues) :
    gatewayPrecheck C gm st apiKey type = .error s!"Invalid conversation type: {type}" := by
  simp [gatewayPrecheck, h, ht]

/-- In own-credits mode with a validated OpenAI key, a stored blob and
password, and no explicit key, a decryption failure makes the precheck
reject with the decryption error — before the conversation type is even
looked at. -/
theorem gatewayPrecheck_decrypt_failure (C : WebCrypto)
    (gm : String → List String → String) (st : SyncStorage) (type : String)
    (blob : EncryptedBlob) (pw : String)
    (h0 : st.isOwnCredits = true)
    (hprov : jsOrString st.selectedProvider "openai" = "openai")
    (hval : st.apiKeyValidated = true)
    (hblob : st.encryptedApiKey = some blob)
    (hpw : st.installationPassword = some pw) (hpw2 : pw ≠ "")
    (hdec : decryptApiKey C blob pw = none) :
    gatewayPrecheck C gm st none type = .error (gm "failedToDecryptApiKey" []) := by
  simp [gatewayPrecheck, h0, hprov, hval, hblob, hpw, hpw2, hdec, strFalsy]

/-- Counterexample to C5 as stated: with an own-credits configuration whose
stored blob fails to decrypt, a call with an unknown conversation type
(`"bogus"`) is rejected with the decryption error, not with the
invalid-conversation-type validation error — so an unknown purposeType does
not yield a validation error regardless of credential state. -/
theorem c5_counterexample :
    (callAIProviderAPIModel trivialCrypto (fun k _ => k) (fun _ => none) c5Storage none
        "bogus" "hi" none (NetResult.transportFail "x")).response
      = some (.error ⟨"failedToDecryptApiKey", none, none, false, none⟩) ∧
    conversationTypeValues.contains "bogus" = false := by
  exact ⟨rfl, by decide⟩

/-- Amended C5: the gateway resolves (and, when needed, decrypts) the
credential before validating the conversation type.  An unknown purposeType
yields the invalid-type validation error whenever the credential stage is
skipped (free tier) or succeeds, and both the validation error and a
decryption failure abort the call before any network request, leaving the
stored conversation untouched; a decryption failure is reported as the
decryption error for every conversation type, known or not. -/
theorem c5_validation_and_decryption_order (C : WebCrypto)
    (gm : String → List String → String) (parse : String → Option FlatObj)
    (stA stB : SyncStorage) (stored : Option Conversation)
    (type type2 userMessage : String) (net : NetResult)
    (apiKeyArg : Option String) (blob : EncryptedBlob) (pw : String)
    (htype : type ∉ conversationTypeValues)
    (hA : stA.isOwnCredits = false)
    (hB0 : stB.isOwnCredits = true)
    (hBprov : jsOrString stB.selectedProvider "openai" = "openai")
    (hBval : stB.apiKeyValidated = true)
    (hBblob : stB.encryptedApiKey = some blob)
    (hBpw : stB.installationPassword = some pw) (hBpw2 : pw ≠ "")
    (hdec : decryptApiKey C blob pw = none) :
    callAIProviderAPIModel C gm parse stA stored type userMessage apiKeyArg net
      = ⟨some (.error ⟨s!"Invalid conversation type: {type}", none, none, false, none⟩),
         stored, false⟩ ∧
    callAIProviderAPIModel C gm parse stB stored type2 userMessage none net
      = ⟨some (.error ⟨gm "failedToDecryptApiKey" [], none, none, false, none⟩),
         stored, false⟩ := by
  constructor
  · exact gateway_precheck_error C gm parse stA stored type userMessage apiKeyArg net _
      (gatewayPrecheck_freeTier_invalid_type C gm stA apiKeyArg type hA htype)
  · exact gateway_precheck_error C gm parse stB stored type2 userMessage none net _
      (gatewayPrecheck_decrypt_failure C gm stB type2 blob pw hB0 hBprov hBval hBblob
        hBpw hBpw2 hdec)

/-- Witness for the amended C5 on concrete storage states: a free-tier call
with type `bogus`, and an own-credits call with a corrupt blob and the valid
type `flashcard`. -/
theorem c5_validation_and_decryption_order_witness :
    callAIProviderAPIModel trivialCrypto (fun k _ => k) (fun _ => none) freeTierStorage
        none "bogus" "hi" none (NetResult.transportFail "x")
      = ⟨some (.error ⟨"Invalid conversation type: bogus", none, none, false, none⟩),
         none, false⟩ ∧
    callAIProviderAPIModel trivialCrypto (fun k _ => k) (fun _ => none) c5Storage
        none "flashcard" "hi" none (NetResult.transportFail "x")
      = ⟨some (.error ⟨"failedToDecryptApiKey", none, none, false, none⟩),
         none, false⟩ :=
  c5_validation_and_decryption_order trivialCrypto (fun k _ => k) (fun _ => none)
    freeTierStorage c5Storage none "bogus" "flashcard" "hi"
    (NetResult.transportFail "x") none ⟨[], [], [0]⟩ "pw"
    (by decide) rfl rfl rfl rfl rfl rfl (by decide) rfl

/-! ## C7 -/

/-- In free-tier mode with a known conversation type, the precheck passes
and hands back the (absent) explicit key. -/
theorem gatewayPrecheck_freeTier_ok (C : WebCrypto)
    (gm : String → List String → String) (st : SyncStorage) (apiKey : Option String)
    (type : String) (h : st.isOwnCredits = false)
    (ht : type ∈ conversationTypeValues) :
    gatewayPrecheck C gm st apiKey type = .ok apiKey := by
  simp [gatewayPrecheck, h, ht]

/-- A conformant flat object has exactly the schema's required keys, as a
permutation, whenever the required list has no duplicates. -/
theorem conformsTo_keys_perm (o : FlatObj) (s : JsonSchemaModel)
    (h : conformsTo o s) (hnd : s.required.Nodup) :
    List.Perm (o.map Prod.fst) s.required := by
  obtain ⟨hic, hsub1, hsub2⟩ := h
  exact (List.perm_ext_iff_of_nodup hic hnd).2 fun a => ⟨hsub2 a, hsub1 a⟩

/-- Claim C7: a Flashcard call against a stubbed OpenAI-like provider whose
reply is schema-conformant resolves to that reply, and the reply's keys are
exactly {definition, translation, example_1, example_2, example_3} when the
outbound user message does not contain "mnemonic", plus `mnemonic` when it
does. -/
theorem c7_flashcard_keys (C : WebCrypto) (gm : String → List String → String)
    (parse : String → Option FlatObj) (st : SyncStorage) (stored : Option Conversation)
    (userMsgNo userMsgYes content1 content2 role1 role2 : String) (o1 o2 : FlatObj)
    (hprov : jsOrString st.selectedProvider "openai" = "openai")
    (hown : st.isOwnCredits = false)
    (hno : jsIncludes userMsgNo "mnemonic" = false)
    (hyes : jsIncludes userMsgYes "mnemonic" = true)
    (hc1 : content1 ≠ "") (hp1 : parse content1 = some o1)
    (hf1 : conformsTo o1 (openaiResponseFormat "flashcard" userMsgNo))
    (hc2 : content2 ≠ "") (hp2 : parse content2 = some o2)
    (hf2 : conformsTo o2 (openaiResponseFormat "flashcard" userMsgYes)) :
    (callAIProviderAPIModel C gm parse st stored "flashcard" userMsgNo none
        (.okOpenAI [⟨role1, content1⟩])).response = some (.ok o1) ∧
    List.Perm (o1.map Prod.fst)
      ["definition", "translation", "example_1", "example_2", "example_3"] ∧
    (callAIProviderAPIModel C gm parse st stored "flashcard" userMsgYes none
        (.okOpenAI [⟨role2, content2⟩])).response = some (.ok o2) ∧
    List.Perm (o2.map Prod.fst)
      ["definition", "translation", "example_1", "example_2", "example_3", "mnemonic"] := by
  have hpre1 := gatewayPrecheck_freeTier_ok C gm st none "flashcard" hown (by decide)
  refine ⟨?_, ?_, ?_, ?_⟩
  · simp [callAIProviderAPIModel, hpre1, hprov, hc1, hp1]
  · have := conformsTo_keys_perm o1 _ hf1 (by simp [openaiResponseFormat, hno])
    simpa [openaiResponseFormat, hno] using this
  · simp [callAIProviderAPIModel, hpre1, hprov, hc2, hp2]
  · have := conformsTo_keys_perm o2 _ hf2 (by simp [openaiResponseFormat, hyes])
    simpa [openaiResponseFormat, hyes] using this

/-- Witness for C7 with concrete conformant replies, with and without the
mnemonic key. -/
theorem c7_flashcard_keys_witness :
    (callAIProviderAPIModel trivialCrypto (fun k _ => k)
        (fun s => if s = "c1" then
            some [("definition", "d"), ("translation", "t"), ("example_1", "e1"),
                  ("example_2", "e2"), ("example_3", "e3")]
          else if s = "c2" then
            some [("definition", "d"), ("translation", "t"), ("example_1", "e1"),
                  ("example_2", "e2"), ("example_3", "e3"), ("mnemonic", "m")]
          else none)
        freeTierStorage none "flashcard" "Define Bonjour" none
        (.okOpenAI [⟨"assistant", "c1"⟩])).response
      = some (.ok [("definition", "d"), ("translation", "t"), ("example_1", "e1"),
                   ("example_2", "e2"), ("example_3", "e3")]) ∧
    List.Perm
      (([("definition", "d"), ("translation", "t"), ("example_1", "e1"),
         ("example_2", "e2"), ("example_3", "e3")] : FlatObj).map Prod.fst)
      ["definition", "translation", "example_1", "example_2", "example_3"] ∧
    (callAIProviderAPIModel trivialCrypto (fun k _ => k)
        (fun s => if s = "c1" then
            some [("definition", "d"), ("translation", "t"), ("example_1", "e1"),
                  ("example_2", "e2"), ("example_3", "e3")]
          else if s = "c2" then
            some [("definition", "d"), ("translation", "t"), ("example_1", "e1"),
                  ("example_2", "e2"), ("example_3", "e3"), ("mnemonic", "m")]
          else none)
        freeTierStorage none "flashcard" "Define Bonjour with a mnemonic" none
        (.okOpenAI [⟨"assistant", "c2"⟩])).response
      = some (.ok [("definition", "d"), ("translation", "t"), ("example_1", "e1"),
                   ("example_2", "e2"), ("example_3", "e3"), ("mnemonic", "m")]) ∧
    List.Perm
      (([("definition", "d"), ("translation", "t"), ("example_1", "e1"),
         ("example_2", "e2"), ("example_3", "e3"), ("mnemonic", "m")] : FlatObj).map Prod.fst)
      ["definition", "translation", "example_1", "example_2", "example_3", "mnemonic"] :=
  c7_flashcard_keys trivialCrypto (fun k _ => k) _ freeTierStorage none
    "Define Bonjour" "Define Bonjour with a mnemonic" "c1" "c2" "assistant" "assistant"
    _ _ rfl rfl (by decide) (by decide) (by decide) rfl (by decide)
    (by decide) rfl (by decide)

/-! ## C9 -/

/-- Counterexample to C9 as stated: a rejection raised before the provider
dispatch (here: an unknown conversation type on the free tier) is delivered
with no `provider` field, so the failure shape's `provider` is not always
present. -/
theorem c9_counterexample :
    (callAIProviderAPIModel trivialCrypto (fun k _ => k) (fun _ => none) freeTierStorage
        none "bogus" "hi" none (NetResult.transportFail "x")).response
      = some (.error ⟨"Invalid conversation type: bogus", none, none, false, none⟩) ∧
    (handleCallChatGPTAPIResponse
        (.error ⟨"Invalid conversation type: bogus", none, none, false, none⟩)).success
      = false ∧
    (handleCallChatGPTAPIResponse
        (.error ⟨"Invalid conversation type: bogus", none, none, false, none⟩)).provider
      = none :=
  ⟨rfl, rfl, rfl⟩

/-- Amended C9: every settled outcome of `callAIProviderAPI` is delivered by
the `callChatGPTAPI` listener as a typed value — `{success: true, data}` on
success with no error fields, or `{success: false, error, status?,
errorData?, provider?, isUnsupportedModel?}` on failure — never as a
propagated exception; `provider` too is optional, absent exactly for
rejections raised before the provider dispatch. -/
theorem c9_gateway_never_throws (C : WebCrypto) (gm : String → List String → String)
    (parse : String → Option FlatObj) (st : SyncStorage) (stored : Option Conversation)
    (type userMessage : String) (apiKeyArg : Option String) (net : NetResult)
    (r : Except EnhancedError FlatObj)
    (h : (callAIProviderAPIModel C gm parse st stored type userMessage apiKeyArg
            net).response = some r) :
    specCallerContract (handleCallChatGPTAPIResponse r) = true := by
  cases r with
  | ok d => rfl
  | error e => rfl

/-- Witness for the amended C9 on a transport failure of a free-tier
flashcard call. -/
theorem c9_gateway_never_throws_witness :
    specCallerContract
      (handleCallChatGPTAPIResponse
        (.error ⟨"Failed to fetch", none, none, false, some "openai"⟩)) = true :=
  c9_gateway_never_throws trivialCrypto (fun k _ => k) (fun _ => none) freeTierStorage
    none "flashcard" "hi" none (NetResult.transportFail "Failed to fetch")
    (.error ⟨"Failed to fetch", none, none, false, some "openai"⟩) rfl
